import Mathlib

/-!
Shallow embedding of `network_configparser.py` from LiteServerProjectNA/lspnet-tools.

The file models, faithfully to the Python source:
  * `load_or_create_keys` (key store, with the external `wg` derivation
    capability and the file-backed persistence modelled as explicit state),
  * `get_bird_config` (the BIRD configuration renderer, with wall-clock
    time and the git version passed in as parameters),
  * `NetworkConfigParser.__init__` (the end-to-end compilation pipeline:
    default inheritance, per-interface resolution, connector resolution,
    OSPF area aggregation, and the final render call).

Python dictionaries are modelled as association lists with
replace-in-place assignment, preserving Python's insertion-order
iteration semantics.  `exit(1)` and uncaught exceptions are modelled with
`Except String`.
-/

/-- Substring helper: `chunkAt pat s` is true when `pat` occurs as a prefix of `s`. -/
def chunkAt : List Char → List Char → Bool
  | [], _ => true
  | _ :: _, [] => false
  | a :: as, b :: bs => a == b && chunkAt as bs

/-- `chunkIn pat s` is true when `pat` occurs as a contiguous run inside `s`. -/
def chunkIn (pat : List Char) : List Char → Bool
  | [] => chunkAt pat []
  | b :: bs => chunkAt pat (b :: bs) || chunkIn pat bs

/-- `containsStr s pat` : does string `s` contain `pat` as a substring. -/
def containsStr (s pat : String) : Bool := chunkIn pat.toList s.toList

/-- `CommonOSPFConfig(area, cost, auth, type)` from `config_types.py`
(constructor argument order taken from the call sites in the source). -/
structure CommonOSPFConfig where
  area : Nat
  cost : Nat
  auth : String
  type : String
deriving Repr, DecidableEq

/-- Modelled from the spec: `config_types.py` is not part of the sources;
the spec's data model (§3) defines `OSPFParameters` as a plain record
`{area, cost, auth-secret, mode}` with no textual rendering of its own,
so Python's `str()` of a `CommonOSPFConfig` instance is the default
object representation (`<config_types.CommonOSPFConfig object at 0x...>`,
memory address elided here), which exposes none of the stored fields. -/
def ospfConfigStr (_ : CommonOSPFConfig) : String :=
  "<config_types.CommonOSPFConfig object>"

/-- A wireguard keypair as returned by `load_or_create_keys`. -/
structure Keypair where
  priv : String
  pub : String
deriving Repr, DecidableEq

/-- One persisted record in `local/{namespace}.{name}.json`; a missing
`public` field reads back as `""` (`data.get('public', '')`). -/
structure StoredRecord where
  priv : String
  pub : String
deriving Repr, DecidableEq

/-- The key-persistence store (external collaborator): a mapping keyed by
`(namespace, link-name)`, one file per key. -/
abbrev KeyStore := List ((String × String) × StoredRecord)

def storeFind (s : KeyStore) (k : String × String) : Option StoredRecord :=
  match s with
  | [] => none
  | (k0, v0) :: rest => if k0 = k then some v0 else storeFind rest k

/-- Writing the file `local/{namespace}.{name}.json`. -/
def storeWrite (s : KeyStore) (k : String × String) (v : StoredRecord) : KeyStore :=
  match s with
  | [] => [(k, v)]
  | (k0, v0) :: rest => if k0 = k then (k, v) :: rest else (k0, v0) :: storeWrite rest k v

/-- Number of persisted records for a given `(namespace, link-name)`. -/
def storeCount (s : KeyStore) (k : String × String) : Nat :=
  match s with
  | [] => 0
  | (k0, _) :: rest => (if k0 = k then 1 else 0) + storeCount rest k

/-- `load_or_create_keys(namespace, name)`.

`derive` is the external `wg pubkey` capability (spec §6: "given a
private secret, deterministically returns its public counterpart");
`freshKey` is what `wg genkey` would produce on this call.  Returns the
keypair, the store after the call, and whether the public-key-mismatch
warning fired. -/
def load_or_create_keys (derive : String → String) (freshKey : String)
    (store : KeyStore) (ns name : String) :
    Keypair × KeyStore × Bool :=
  match storeFind store (ns, name) with
  | some data =>
    let new_key := data.priv
    let new_pub := derive new_key
    let pub_key := data.pub
    (⟨new_key, new_pub⟩, store, pub_key ≠ "" && pub_key ≠ new_pub)
  | none =>
    let new_key := freshKey
    let new_pub := derive new_key
    (⟨new_key, new_pub⟩, storeWrite store (ns, name) ⟨new_key, new_pub⟩, false)

/-! ## BIRD configuration renderer (`get_bird_config`) -/

/-- The inner `dict` of one OSPF area: interface name → OSPF parameters,
in insertion order. -/
abbrev AreaInterfaceMap := List (String × CommonOSPFConfig)

/-- `ospf_area_config`: area id → interface map, in insertion order. -/
abbrev AreaMap := List (Nat × AreaInterfaceMap)

/-- `'router id {};'.format(router_id) if router_id else ''` -/
def routerIdText (router_id : String) : String :=
  if router_id = "" then "" else "router id " ++ router_id ++ ";"

/-- `'\n'.join(['interface "{}";'.format(name) for name in direct_interface_names])` -/
def dnamesText (direct_interface_names : List String) : String :=
  String.intercalate "\n"
    (direct_interface_names.map fun name => "interface \"" ++ name ++ "\";")

/-- `'define LOCALNET_NO_IMPORTSET=[{}];'.format(...) if ospf_exclude_import_cidrs else ''` -/
def localnetNoImportVarText (cidrs : List String) : String :=
  if cidrs.isEmpty then ""
  else "define LOCALNET_NO_IMPORTSET=[" ++ String.intercalate "," cidrs ++ "];"

/-- export-side analogue of `localnetNoImportVarText` -/
def localnetNoExportVarText (cidrs : List String) : String :=
  if cidrs.isEmpty then ""
  else "define LOCALNET_NO_EXPORTSET=[" ++ String.intercalate "," cidrs ++ "];"

/-- The import filter: the source's triple-quoted literal is *not* an
f-string, so its doubled braces are kept verbatim. -/
def importFilterText (cidrs : List String) : String :=
  if localnetNoImportVarText cidrs = "" then "import all"
  else "import filter \x7b\x7b\nif net !~ LOCALNET_NO_IMPORTSET then accept;\nelse reject;\n\x7d\x7d"

/-- The export filter (same doubled-brace quirk as the import filter). -/
def exportFilterText (cidrs : List String) : String :=
  if localnetNoExportVarText cidrs = "" then "export all"
  else "export filter \x7b\x7b\nif net !~ LOCALNET_NO_EXPORTSET then accept;\nelse reject;\n\x7d\x7d"

/-- The `password "..." { ... };` block emitted for an authenticated
interface (an f-string in the source: doubled braces render as single). -/
def passwordBlockText (current_time_for_auth_text : String) (c : CommonOSPFConfig) : String :=
  "password \"" ++ ospfConfigStr c
    ++ "\" \x7b\ngenerate to \"31-12-2099 23:59:59\";\naccept from "
    ++ current_time_for_auth_text ++ "\nalgorithm hmac sha512;\n\x7d;"

/-- The `text_parts` entries appended for one interface inside an area. -/
def interfaceTextParts (current_time_for_auth_text : String)
    (interface_name : String) (c : CommonOSPFConfig) : List String :=
  ["interface \"" ++ interface_name ++ "\" \x7b"]
  ++ (if c.cost ≠ 0 then ["cost " ++ toString c.cost ++ ";"] else [])
  ++ (if c.type ≠ "" then ["type " ++ c.type ++ ";"] else [])
  ++ (if c.auth ≠ "" then
        ["authentication cryptographic;",
         passwordBlockText current_time_for_auth_text c]
      else [])
  ++ ["\x7d;"]

/-- The `text_parts` list accumulated for one area. -/
def areaTextParts (current_time_for_auth_text : String)
    (area_id : Nat) (area_interface_mapping : AreaInterfaceMap) : List String :=
  ["area " ++ toString area_id ++ " \x7b"]
  ++ (area_interface_mapping.map
        (fun p => interfaceTextParts current_time_for_auth_text p.1 p.2)).flatten
  ++ ["\x7d;"]

/-- One element of `all_area_texts`. -/
def areaText (current_time_for_auth_text : String) (a : Nat × AreaInterfaceMap) : String :=
  String.intercalate "\n" (areaTextParts current_time_for_auth_text a.1 a.2)

/-- `final_area_text = '\n'.join(all_area_texts)` -/
def finalAreaText (current_time_for_auth_text : String) (amap : AreaMap) : String :=
  String.intercalate "\n" (amap.map (areaText current_time_for_auth_text))

/-- `get_bird_config`.  `git_version`, `current_time_text` and
`current_time_for_auth_text` stand for the module-level `GIT_VERSION`
and the two `datetime.now()`-derived strings (external inputs of the
render: the wall clock and the git checkout). -/
def get_bird_config (git_version current_time_text current_time_for_auth_text : String)
    (router_id : String) (direct_interface_names : List String)
    (ospf_exclude_import_cidrs ospf_exclude_export_cidrs : List String)
    (ospf_area_config : AreaMap) : String :=
  "# Auto generated by lspnet-tools at " ++ current_time_text ++ "\n"
  ++ "# version: " ++ git_version ++ "\n"
  ++ "\n"
  ++ localnetNoImportVarText ospf_exclude_import_cidrs ++ "\n"
  ++ localnetNoExportVarText ospf_exclude_export_cidrs ++ "\n"
  ++ "\n"
  ++ "log stderr all;\n"
  ++ routerIdText router_id ++ "\n"
  ++ "protocol device \x7b\n"
  ++ "    \n"
  ++ "\x7d\n"
  ++ "protocol direct \x7b\n"
  ++ "    ipv4;\n"
  ++ "    " ++ dnamesText direct_interface_names ++ "\n"
  ++ "\x7d\n"
  ++ "protocol kernel \x7b\n"
  ++ "    ipv4 \x7b\n"
  ++ "        import none;\n"
  ++ "        export where proto = \"wg\";\n"
  ++ "    \x7d;\n"
  ++ "\x7d\n"
  ++ "protocol ospf v2 wg \x7b\n"
  ++ "    ecmp yes;\n"
  ++ "    merge external yes;\n"
  ++ "    ipv4 \x7b\n"
  ++ "        " ++ importFilterText ospf_exclude_import_cidrs ++ ";\n"
  ++ "        " ++ exportFilterText ospf_exclude_export_cidrs ++ ";\n"
  ++ "    \x7d;\n"
  ++ "    " ++ finalAreaText current_time_for_auth_text ospf_area_config ++ "\n"
  ++ "\x7d\n"

/-! ## Typed configuration records (`config_types.py` call-site shapes) -/

/-- `ConnectorPhantunServerConfig(listen, tun-name, tun-local, tun-peer)`;
`remote` is assigned after construction (lines 203-207 of the source). -/
structure ConnectorPhantunServerConfig where
  listen : Nat
  tun_name : String
  tun_local : String
  tun_peer : String
  remote : String := ""
deriving Repr, DecidableEq

/-- `ConnectorPhantunClientConfig(local, remote, tun-name, tun-local, tun-peer)`
(`local` is a Lean keyword, so the first field is named `local_addr`). -/
structure ConnectorPhantunClientConfig where
  local_addr : String
  remote : String
  tun_name : String
  tun_local : String
  tun_peer : String
deriving Repr, DecidableEq

/-- The two connector variants a resolved interface can carry. -/
inductive ConnectorConfig where
  | server : ConnectorPhantunServerConfig → ConnectorConfig
  | client : ConnectorPhantunClientConfig → ConnectorConfig
deriving Repr, DecidableEq

/-- A fully resolved `InterfaceConfig`.  Field defaults support the
bare `InterfaceConfig()` construction used for the local interface. -/
structure InterfaceConfig where
  name : String := ""
  priv : String := ""
  pub : String := ""
  mtu : Nat := 1420
  address : String := ""
  listen : Nat := 0
  peer : String := ""
  allowed : String := ""
  endpoint : String := ""
  keepalive : Nat := 0
  autoconnect : Bool := false
  enable_ospf : Bool := false
  ospf_config : Option CommonOSPFConfig := none
  connector : Option ConnectorConfig := none
deriving Repr, DecidableEq

/-- Modelled from the spec: `InterfaceConfig.validate` lives in the absent
`config_types.py`; spec §3: "`autoconnect` requires a non-empty
`endpoint` — violation is fatal at resolution time". -/
def InterfaceConfig.validate (c : InterfaceConfig) : Bool :=
  !(c.autoconnect && c.endpoint == "")

/-- The raw `connector` sub-dict of one link (`interface_config['connector']`). -/
structure RawConnectorConfig where
  type : String
  listen : Nat := 0
  remote : String := ""
  tun_name : String := ""
  tun_local : String := ""
  tun_peer : String := ""
deriving Repr, DecidableEq

/-- One raw link entry of the `networks` mapping.  `none` means the key
is absent and the `.get` default applies. -/
structure RawInterfaceConfig where
  mtu : Option Nat := none
  address : String := ""
  listen : Option Nat := none
  peer : String := ""
  endpoint : Option String := none
  keepalive : Option Nat := none
  autoconnect : Option Bool := none
  ospf : Option Bool := none
  area : Option Nat := none
  cost : Option Nat := none
  auth : Option String := none
  connector : Option RawConnectorConfig := none
deriving Repr, DecidableEq

/-- The raw optional `local` block of the root configuration. -/
structure RawLocalConfig where
  exit : Option Bool := none
  name : Option String := none
  address : String := ""
  ethname : String := ""
  ospf : Option Bool := none
  area : Option Nat := none
  cost : Option Nat := none
  auth : Option String := none
deriving Repr, DecidableEq

/-- The raw node-wide `config` block (routing defaults). -/
structure RawNodeDefaults where
  ospf : Option Bool := none
  area : Option Nat := none
  cost : Option Nat := none
  auth : Option String := none
deriving Repr, DecidableEq

/-- The root configuration handed to `NetworkConfigParser.__init__`.
`networks` is a list of `(link-name, raw-settings)` pairs in declaration
order; `firewall` records only the presence of a firewall block. -/
structure RootConfig where
  hostname : String
  ns : String
  pfx : Option String := none
  routerid : Option String := none
  local_net : Option RawLocalConfig := none
  config : RawNodeDefaults := {}
  networks : List (String × RawInterfaceConfig) := []
  firewall : Bool := false
deriving Repr, DecidableEq

/-! ## Per-interface resolution (source lines 162-227) -/

/-- Resolution of one link: default inheritance, validation, connector
resolution.  `wg` is the keypair obtained from `load_or_create_keys`;
`exit(1)` becomes `.error`. -/
def resolveInterface (ns : String) (network_default_enable_ospf : Bool)
    (network_default_ospf_config : CommonOSPFConfig) (wg : Keypair)
    (interface_name : String) (interface_config : RawInterfaceConfig) :
    Except String InterfaceConfig :=
  let endpoint0 := interface_config.endpoint.getD ""
  let base : InterfaceConfig :=
    { name := ns ++ "-" ++ interface_name
      priv := wg.priv
      pub := wg.pub
      mtu := interface_config.mtu.getD 1420
      address := interface_config.address
      listen := interface_config.listen.getD 0
      peer := interface_config.peer
      allowed := "0.0.0.0/0"
      endpoint := endpoint0
      keepalive := interface_config.keepalive.getD (if endpoint0 ≠ "" then 25 else 0)
      autoconnect := interface_config.autoconnect.getD false }
  let enable := interface_config.ospf.getD network_default_enable_ospf
  let new_interface : InterfaceConfig :=
    { base with
      enable_ospf := enable
      ospf_config :=
        if enable then
          some ⟨interface_config.area.getD network_default_ospf_config.area,
                interface_config.cost.getD network_default_ospf_config.cost,
                interface_config.auth.getD network_default_ospf_config.auth,
                "ptp"⟩
        else none }
  if !new_interface.validate then
    .error "exit 1: interface validation failed"
  else
    match interface_config.connector with
    | none => .ok { new_interface with connector := none }
    | some connector_config =>
      if connector_config.type = "phantun-server" then
        let c0 : ConnectorPhantunServerConfig :=
          { listen := connector_config.listen
            tun_name := connector_config.tun_name
            tun_local := connector_config.tun_local
            tun_peer := connector_config.tun_peer }
        let c1 :=
          if new_interface.listen = 0 then { c0 with remote := "#dynamic" }
          else { c0 with remote := "127.0.0.1:" ++ toString new_interface.listen }
        .ok { new_interface with connector := some (.server c1) }
      else if connector_config.type = "phantun-client" then
        let c1 : ConnectorPhantunClientConfig :=
          { local_addr := "127.0.0.1:" ++ toString connector_config.listen
            remote := connector_config.remote
            tun_name := connector_config.tun_name
            tun_local := connector_config.tun_local
            tun_peer := connector_config.tun_peer }
        .ok { new_interface with
                endpoint := "127.0.0.1:" ++ toString connector_config.listen
                connector := some (.client c1) }
      else
        .error ("unknown connector type: " ++ connector_config.type)

/-! ## OSPF area aggregation and the full pipeline -/

/-- Python `dict` assignment on the inner interface map: replace in
place if the key exists, else append. -/
def ifaceMapSet (m : AreaInterfaceMap) (k : String) (v : CommonOSPFConfig) : AreaInterfaceMap :=
  match m with
  | [] => [(k, v)]
  | (k0, v0) :: rest => if k0 = k then (k, v) :: rest else (k0, v0) :: ifaceMapSet rest k v

def ifaceMapFind (m : AreaInterfaceMap) (k : String) : Option CommonOSPFConfig :=
  match m with
  | [] => none
  | (k0, v0) :: rest => if k0 = k then some v0 else ifaceMapFind rest k

/-- Python `dict` assignment on the area map. -/
def areaMapSet (m : AreaMap) (a : Nat) (d : AreaInterfaceMap) : AreaMap :=
  match m with
  | [] => [(a, d)]
  | (a0, d0) :: rest => if a0 = a then (a, d) :: rest else (a0, d0) :: areaMapSet rest a d

def areaMapFind (m : AreaMap) (a : Nat) : Option AreaInterfaceMap :=
  match m with
  | [] => none
  | (a0, d0) :: rest => if a0 = a then some d0 else areaMapFind rest a

/-- `area in ospf_area_config` -/
def areaMapHas (m : AreaMap) (a : Nat) : Bool := (areaMapFind m a).isSome

/-- Does `ospf_area_config[a]` contain interface `k`?  (An absent area
behaves as an empty interface map.) -/
def areaMapHasIface (m : AreaMap) (a : Nat) (k : String) : Bool :=
  (ifaceMapFind ((areaMapFind m a).getD []) k).isSome

/-- One iteration of the aggregation loop (source lines 235-242).
An OSPF-enabled interface whose `ospf_config` was never assigned would
raise `AttributeError` in Python; modelled as `.error`. -/
def ospfAggregateStep (m : AreaMap) (interface_item : InterfaceConfig) :
    Except String AreaMap :=
  if !interface_item.enable_ospf then .ok m
  else
    match interface_item.ospf_config with
    | none => .error "AttributeError: ospf_config"
    | some c =>
      let m1 := if areaMapHas m c.area then m else areaMapSet m c.area []
      match areaMapFind m1 c.area with
      | none => .error "KeyError"
      | some d => .ok (areaMapSet m1 c.area (ifaceMapSet d interface_item.name c))

/-- The aggregation loop over `self.interfaces.values()`. -/
def ospfAggregate : AreaMap → List InterfaceConfig → Except String AreaMap
  | m, [] => .ok m
  | m, it :: rest =>
    match ospfAggregateStep m it with
    | .error e => .error e
    | .ok m1 => ospfAggregate m1 rest

/-- The local-network insertion (source lines 244-248), reproduced
verbatim: the membership test reads `self.local_interface.ospf_config.area`,
but both the area-entry creation and the insertion key on the *stale loop
variable* `interface_item` — the last interface iterated by the
aggregation loop (`none` here models the `NameError` when no interface
exists). -/
def localOspfInsert (m : AreaMap) (last_interface_item : Option InterfaceConfig)
    (local_ospf_config : CommonOSPFConfig) (local_veth : String) :
    Except String AreaMap :=
  match last_interface_item with
  | none => .error "NameError: name interface_item is not defined"
  | some interface_item =>
    match interface_item.ospf_config with
    | none => .error "AttributeError: NoneType has no attribute area"
    | some ic =>
      let m1 := if areaMapHas m local_ospf_config.area then m else areaMapSet m ic.area []
      match areaMapFind m1 ic.area with
      | none => .error "KeyError"
      | some d =>
        .ok (areaMapSet m1 ic.area (ifaceMapSet d (local_veth ++ "1") local_ospf_config))

/-- Python `dict` assignment `self.interfaces[name] = new_interface`. -/
def interfacesSet (m : List (String × InterfaceConfig)) (k : String) (v : InterfaceConfig) :
    List (String × InterfaceConfig) :=
  match m with
  | [] => [(k, v)]
  | (k0, v0) :: rest => if k0 = k then (k, v) :: rest else (k0, v0) :: interfacesSet rest k v

def interfacesFind (m : List (String × InterfaceConfig)) (k : String) : Option InterfaceConfig :=
  match m with
  | [] => none
  | (k0, v0) :: rest => if k0 = k then some v0 else interfacesFind rest k

/-- The `for interface_name, interface_config in network_config.items()`
loop: resolve each link in declaration order and store it under its
composite name with `dict` assignment. -/
def resolveAllInterfaces (ns : String) (network_default_enable_ospf : Bool)
    (network_default_ospf_config : CommonOSPFConfig) (keyFor : String → Keypair)
    (acc : List (String × InterfaceConfig)) :
    List (String × RawInterfaceConfig) → Except String (List (String × InterfaceConfig))
  | [] => .ok acc
  | (interface_name, interface_config) :: rest =>
    match resolveInterface ns network_default_enable_ospf network_default_ospf_config
        (keyFor interface_name) interface_name interface_config with
    | .error e => .error e
    | .ok new_interface =>
      resolveAllInterfaces ns network_default_enable_ospf network_default_ospf_config
        keyFor (interfacesSet acc new_interface.name new_interface) rest

/-- The external collaborators of the pipeline: git version, the two
wall-clock strings, the key store result per link name, and the two
`ipaddress` stdlib conversions (`str(ip_interface(x).network)` and
`str(ip_network(x))`). -/
structure ExternalEnv where
  git_version : String
  current_time_text : String
  current_time_for_auth_text : String
  keyFor : String → Keypair
  interfaceNetworkOf : String → String
  localNetworkOf : String → String

/-- The state `NetworkConfigParser.__init__` leaves behind. -/
structure NetworkConfigParser where
  hostname : String
  ns : String
  ifname_pfx : String
  router_id : String
  enable_local_network : Bool
  local_is_exit_node : Bool := true
  local_veth_pfx : String := ""
  local_interface : Option InterfaceConfig := none
  network_default_enable_ospf : Bool
  network_default_ospf_config : CommonOSPFConfig
  enable_local_firewall : Bool
  interfaces : List (String × InterfaceConfig)
  interface_cidrs : List String
  ospf_area_config : AreaMap
  network_bird_config : String
deriving Repr, DecidableEq

/-- Resolution of the optional `local` block (source lines 121-139):
returns `(enable_local_network, is_exit, veth_pfx, local_interface)`. -/
def resolveLocal (ns : String) : Option RawLocalConfig →
    Bool × Bool × String × Option InterfaceConfig
  | none => (false, true, "", none)
  | some local_config =>
    let li0 : InterfaceConfig :=
      { address := local_config.address
        name := local_config.ethname
        enable_ospf := local_config.ospf.getD false }
    let lc : CommonOSPFConfig :=
      ⟨local_config.area.getD 0, local_config.cost.getD 0,
       local_config.auth.getD "", "ptp"⟩
    let li :=
      if li0.enable_ospf then { li0 with ospf_config := some lc } else li0
    (true, local_config.exit.getD true, local_config.name.getD (ns ++ "-veth"), some li)

/-- `self.network_default_ospf_config` (source lines 143-148). -/
def nodeDefaultOspfConfig (network_config : RawNodeDefaults) : CommonOSPFConfig :=
  ⟨network_config.area.getD 0, network_config.cost.getD 0,
   network_config.auth.getD "", "ptp"⟩

/-- `NetworkConfigParser.__init__`, end to end. -/
def parseNetworkConfig (env : ExternalEnv) (root : RootConfig) :
    Except String NetworkConfigParser :=
  let hostname := root.hostname
  let ns := root.ns
  let ifname_pfx := root.pfx.getD hostname
  let router_id := root.routerid.getD ""
  let localR := resolveLocal ns root.local_net
  let enable_local_network := localR.1
  let local_is_exit_node := localR.2.1
  let local_veth_pfx := localR.2.2.1
  let local_interface := localR.2.2.2
  let network_default_enable_ospf := root.config.ospf.getD false
  let network_default_ospf_config := nodeDefaultOspfConfig root.config
  let enable_local_firewall := root.firewall
  Except.bind (resolveAllInterfaces ns network_default_enable_ospf
      network_default_ospf_config env.keyFor [] root.networks) (fun interfaces =>
    let vals := interfaces.map (fun p => p.2)
    let interface_cidrs :=
      (vals.filter (fun it => it.enable_ospf)).map
        (fun it => env.interfaceNetworkOf it.address)
    let localOspfOn :=
      enable_local_network &&
        (match local_interface with
         | some li => li.enable_ospf
         | none => false)
    let interface_cidrs :=
      if localOspfOn then
        interface_cidrs ++
          [env.localNetworkOf ((local_interface.getD {}).address)]
      else interface_cidrs
    Except.bind (ospfAggregate [] vals) (fun amap0 =>
      let afterLocal :=
        if localOspfOn then
          match (local_interface.getD {}).ospf_config with
          | some lc => localOspfInsert amap0 vals.getLast? lc local_veth_pfx
          | none => .error "AttributeError: NoneType has no attribute area"
        else .ok amap0
      Except.bind afterLocal (fun ospf_area_config =>
        .ok { hostname := hostname
              ns := ns
              ifname_pfx := ifname_pfx
              router_id := router_id
              enable_local_network := enable_local_network
              local_is_exit_node := local_is_exit_node
              local_veth_pfx := local_veth_pfx
              local_interface := local_interface
              network_default_enable_ospf := network_default_enable_ospf
              network_default_ospf_config := network_default_ospf_config
              enable_local_firewall := enable_local_firewall
              interfaces := interfaces
              interface_cidrs := interface_cidrs
              ospf_area_config := ospf_area_config
              network_bird_config :=
                get_bird_config env.git_version env.current_time_text
                  env.current_time_for_auth_text "" [] interface_cidrs []
                  ospf_area_config })))

/-! ## Helper lemmas: association-map operations -/

theorem storeFind_write_self (s : KeyStore) (k : String × String) (v : StoredRecord) :
    storeFind (storeWrite s k v) k = some v := by
  induction s with
  | nil => simp [storeWrite, storeFind]
  | cons hd tl ih =>
    obtain ⟨k0, v0⟩ := hd
    by_cases h : k0 = k <;> simp [storeWrite, storeFind, h, ih]

theorem storeCount_write_new (s : KeyStore) (k : String × String) (v : StoredRecord)
    (h : storeFind s k = none) : storeCount (storeWrite s k v) k = storeCount s k + 1 := by
  induction s with
  | nil => simp [storeWrite, storeCount]
  | cons hd tl ih =>
    obtain ⟨k0, v0⟩ := hd
    by_cases hk : k0 = k
    · simp [storeFind, hk] at h
    · simp [storeFind, hk] at h
      simp [storeWrite, storeCount, hk, ih h]

theorem storeFind_none_count (s : KeyStore) (k : String × String)
    (h : storeFind s k = none) : storeCount s k = 0 := by
  induction s with
  | nil => simp [storeCount]
  | cons hd tl ih =>
    obtain ⟨k0, v0⟩ := hd
    by_cases hk : k0 = k
    · simp [storeFind, hk] at h
    · simp [storeFind, hk] at h
      simp [storeCount, hk, ih h]

theorem storeFind_some_count_pos (s : KeyStore) (k : String × String) (v : StoredRecord)
    (h : storeFind s k = some v) : 1 ≤ storeCount s k := by
  induction s with
  | nil => simp [storeFind] at h
  | cons hd tl ih =>
    obtain ⟨k0, v0⟩ := hd
    by_cases hk : k0 = k
    · simp [storeCount, hk]
    · simp [storeFind, hk] at h
      have := ih h
      simp [storeCount, hk]
      omega

/-- Shape lemma: an `if`-guarded fatal error that still produced `.ok`
forces the success branch. -/
theorem exceptIte_ok_eq {α : Type} {C : Prop} [Decidable C] {e : String} {r it : α}
    (h : (if C then Except.error e else Except.ok r) = Except.ok it) : it = r := by
  split at h
  · exact absurd h (by simp)
  · injection h with h
    exact h.symm

/-- Shape lemma: an `if`-guarded fatal error that still produced `.ok`
forces the else branch to have produced it. -/
theorem exceptIte_ok_else {α : Type} {C : Prop} [Decidable C] {e : String}
    {x : Except String α} {it : α}
    (h : (if C then Except.error e else x) = Except.ok it) : x = Except.ok it := by
  split at h
  · exact absurd h (by simp)
  · exact h

/-- Shape lemma: both branches fatal, so `.ok` is impossible. -/
theorem exceptIte_error_elim {α : Type} {C : Prop} [Decidable C] {e1 e2 : String} {it : α}
    (h : (if C then Except.error e1 else Except.error e2) = Except.ok it) : False := by
  split at h <;> exact absurd h (by simp)

/-- Fields of a successfully resolved interface that no branch of the
connector resolution modifies, expressed from the raw configuration. -/
theorem resolveInterface_ok_fields (ns : String) (dE : Bool) (dC : CommonOSPFConfig)
    (wg : Keypair) (n : String) (cfg : RawInterfaceConfig) (it : InterfaceConfig)
    (hok : resolveInterface ns dE dC wg n cfg = .ok it) :
    it.name = ns ++ "-" ++ n
    ∧ it.listen = cfg.listen.getD 0
    ∧ it.enable_ospf = cfg.ospf.getD dE
    ∧ it.ospf_config = (if cfg.ospf.getD dE then
        some ⟨cfg.area.getD dC.area, cfg.cost.getD dC.cost, cfg.auth.getD dC.auth, "ptp"⟩
      else none) := by
  cases hconn : cfg.connector with
  | none =>
    simp only [resolveInterface, hconn] at hok
    have h := exceptIte_ok_eq hok
    subst h
    exact ⟨rfl, rfl, rfl, rfl⟩
  | some cc =>
    simp only [resolveInterface, hconn] at hok
    by_cases hs : cc.type = "phantun-server"
    · rw [if_pos hs] at hok
      have h := exceptIte_ok_eq hok
      subst h
      exact ⟨rfl, rfl, rfl, rfl⟩
    · rw [if_neg hs] at hok
      by_cases hc2 : cc.type = "phantun-client"
      · rw [if_pos hc2] at hok
        have h := exceptIte_ok_eq hok
        subst h
        exact ⟨rfl, rfl, rfl, rfl⟩
      · rw [if_neg hc2] at hok
        exact (exceptIte_error_elim hok).elim

/-- C9: invoking the key store twice for the same `(namespace, link-name)`
returns the same keypair both times and leaves exactly one persisted
record: the first call loads or creates, the second takes the load path
without overwriting, returning the stored private key and the same
deterministically recomputed public key.  The hypothesis states that the
file-per-key persistence holds at most one record for the key initially. -/
theorem load_or_create_keys_idempotent (derive : String → String)
    (f1 f2 : String) (store : KeyStore) (ns name : String)
    (h : storeCount store (ns, name) ≤ 1) :
    (load_or_create_keys derive f2
        (load_or_create_keys derive f1 store ns name).2.1 ns name).1
      = (load_or_create_keys derive f1 store ns name).1
    ∧ (load_or_create_keys derive f2
        (load_or_create_keys derive f1 store ns name).2.1 ns name).2.1
      = (load_or_create_keys derive f1 store ns name).2.1
    ∧ storeCount (load_or_create_keys derive f1 store ns name).2.1 (ns, name) = 1 := by
  rcases hfind : storeFind store (ns, name) with _ | data
  · have hw := storeFind_write_self store (ns, name) ⟨f1, derive f1⟩
    have hc := storeCount_write_new store (ns, name) ⟨f1, derive f1⟩ hfind
    have hz := storeFind_none_count store (ns, name) hfind
    refine ⟨?_, ?_, ?_⟩ <;> simp [load_or_create_keys, hfind, hw, hc, hz]
  · have hpos := storeFind_some_count_pos store (ns, name) data hfind
    refine ⟨?_, ?_, ?_⟩ <;> simp [load_or_create_keys, hfind]
    omega

/-- Witness for C9: fresh store, concrete namespace and link name. -/
theorem load_or_create_keys_idempotent_witness :
    storeCount ([] : KeyStore) ("n", "wg0") ≤ 1
    ∧ ((load_or_create_keys (fun s => s ++ "#pub") "J"
          (load_or_create_keys (fun s => s ++ "#pub") "K" [] "n" "wg0").2.1 "n" "wg0").1
        = (load_or_create_keys (fun s => s ++ "#pub") "K" [] "n" "wg0").1
      ∧ (load_or_create_keys (fun s => s ++ "#pub") "J"
          (load_or_create_keys (fun s => s ++ "#pub") "K" [] "n" "wg0").2.1 "n" "wg0").2.1
        = (load_or_create_keys (fun s => s ++ "#pub") "K" [] "n" "wg0").2.1
      ∧ storeCount (load_or_create_keys (fun s => s ++ "#pub") "K" [] "n" "wg0").2.1
          ("n", "wg0") = 1) :=
  ⟨by decide,
   load_or_create_keys_idempotent (fun s => s ++ "#pub") "K" "J" [] "n" "wg0" (by decide)⟩

/-- C4: a `phantun-client` connector unconditionally overrides the owning
interface's endpoint with `127.0.0.1:<connector-listen>`, whatever
endpoint the raw configuration declared. -/
theorem phantun_client_connector_overrides_endpoint
    (ns : String) (dE : Bool) (dC : CommonOSPFConfig) (wg : Keypair)
    (n : String) (cfg : RawInterfaceConfig) (cc : RawConnectorConfig)
    (it : InterfaceConfig)
    (hcc : cfg.connector = some cc) (ht : cc.type = "phantun-client")
    (hok : resolveInterface ns dE dC wg n cfg = .ok it) :
    it.endpoint = "127.0.0.1:" ++ toString cc.listen := by
  simp only [resolveInterface, hcc] at hok
  have hok2 := exceptIte_ok_else hok
  rw [if_neg (by simp [ht]), if_pos ht] at hok2
  injection hok2 with h
  subst h
  rfl

/-- Witness for C4: raw interface with a pre-existing endpoint and a
`phantun-client` connector listening on 4500. -/
theorem phantun_client_connector_overrides_endpoint_witness :
    ((resolveInterface "ns" false ⟨0, 0, "", "ptp"⟩ ⟨"P", "Q"⟩ "a"
        { address := "10.0.0.1/24", peer := "10.0.0.2", endpoint := some "1.2.3.4:51820",
          connector := some { type := "phantun-client", listen := 4500 } }).toOption.getD
      {}).endpoint = "127.0.0.1:4500" :=
  phantun_client_connector_overrides_endpoint "ns" false ⟨0, 0, "", "ptp"⟩ ⟨"P", "Q"⟩ "a"
    { address := "10.0.0.1/24", peer := "10.0.0.2", endpoint := some "1.2.3.4:51820",
      connector := some { type := "phantun-client", listen := 4500 } }
    { type := "phantun-client", listen := 4500 } _ rfl rfl rfl

/-- C5: a `phantun-server` connector's `remote` is the dynamic sentinel
`#dynamic` when the owning interface's listen port is 0, and
`127.0.0.1:<listen>` when it is positive. -/
theorem phantun_server_connector_remote
    (ns : String) (dE : Bool) (dC : CommonOSPFConfig) (wg : Keypair)
    (n : String) (cfg : RawInterfaceConfig) (cc : RawConnectorConfig)
    (it : InterfaceConfig)
    (hcc : cfg.connector = some cc) (ht : cc.type = "phantun-server")
    (hok : resolveInterface ns dE dC wg n cfg = .ok it) :
    ∃ sc, it.connector = some (ConnectorConfig.server sc)
      ∧ (it.listen = 0 → sc.remote = "#dynamic")
      ∧ (0 < it.listen → sc.remote = "127.0.0.1:" ++ toString it.listen) := by
  simp only [resolveInterface, hcc] at hok
  have hok2 := exceptIte_ok_else hok
  rw [if_pos ht] at hok2
  injection hok2 with h
  subst h
  by_cases hl : cfg.listen.getD 0 = 0
  · refine ⟨_, rfl, fun _ => ?_, fun hpos => ?_⟩
    · simp [hl]
    · exact absurd hpos (by simp [hl])
  · refine ⟨_, rfl, fun h0 => ?_, fun _ => ?_⟩
    · exact absurd h0 (by simp [hl])
    · simp [hl]

/-- Witness for C5: `phantun-server` connector on an interface listening
on 51820. -/
theorem phantun_server_connector_remote_witness :
    ∃ sc,
      ((resolveInterface "ns" false ⟨0, 0, "", "ptp"⟩ ⟨"P", "Q"⟩ "a"
          { address := "10.0.0.1/24", peer := "10.0.0.2", listen := some 51820,
            connector := some { type := "phantun-server", listen := 4500 } }).toOption.getD
        {}).connector = some (ConnectorConfig.server sc)
      ∧ (((resolveInterface "ns" false ⟨0, 0, "", "ptp"⟩ ⟨"P", "Q"⟩ "a"
          { address := "10.0.0.1/24", peer := "10.0.0.2", listen := some 51820,
            connector := some { type := "phantun-server", listen := 4500 } }).toOption.getD
        {}).listen = 0 → sc.remote = "#dynamic")
      ∧ (0 < ((resolveInterface "ns" false ⟨0, 0, "", "ptp"⟩ ⟨"P", "Q"⟩ "a"
          { address := "10.0.0.1/24", peer := "10.0.0.2", listen := some 51820,
            connector := some { type := "phantun-server", listen := 4500 } }).toOption.getD
        {}).listen → sc.remote = "127.0.0.1:" ++ toString (((resolveInterface "ns" false
            ⟨0, 0, "", "ptp"⟩ ⟨"P", "Q"⟩ "a"
          { address := "10.0.0.1/24", peer := "10.0.0.2", listen := some 51820,
            connector := some { type := "phantun-server", listen := 4500 } }).toOption.getD
        {}).listen)) :=
  phantun_server_connector_remote "ns" false ⟨0, 0, "", "ptp"⟩ ⟨"P", "Q"⟩ "a"
    { address := "10.0.0.1/24", peer := "10.0.0.2", listen := some 51820,
      connector := some { type := "phantun-server", listen := 4500 } }
    { type := "phantun-server", listen := 4500 } _ rfl rfl rfl

/-- The concrete node-level defaults block used by the C6 witness. -/
def c6NodeDefaults : RawNodeDefaults :=
  { ospf := some true, area := some 7, cost := some 3, auth := some "x" }

/-- C6: default inheritance.  An OSPF-enabled interface declaring none of
`ospf`, `area`, `cost`, `auth` resolves to the node-level defaults; one
declaring all four resolves to the declared values exactly. -/
theorem ospf_default_inheritance
    (ns : String) (nc : RawNodeDefaults) (wg : Keypair) (n : String)
    (cfg : RawInterfaceConfig) (it : InterfaceConfig)
    (hok : resolveInterface ns (nc.ospf.getD false) (nodeDefaultOspfConfig nc) wg n cfg
      = .ok it) :
    ((cfg.ospf = none ∧ cfg.area = none ∧ cfg.cost = none ∧ cfg.auth = none
        ∧ it.enable_ospf = true) → it.ospf_config = some (nodeDefaultOspfConfig nc))
    ∧ (∀ a co au, cfg.ospf = some true → cfg.area = some a → cfg.cost = some co →
        cfg.auth = some au →
        it.enable_ospf = true ∧ it.ospf_config = some ⟨a, co, au, "ptp"⟩) := by
  obtain ⟨-, -, hen, hcf⟩ := resolveInterface_ok_fields _ _ _ _ _ _ _ hok
  constructor
  · rintro ⟨ho, ha, hc, hau, htrue⟩
    rw [hen, ho] at htrue
    simp only [Option.getD_none] at htrue
    rw [hcf, ho, ha, hc, hau]
    simp [htrue, nodeDefaultOspfConfig]
  · intro a co au ho ha hc hau
    constructor
    · rw [hen, ho]
      rfl
    · rw [hcf, ho, ha, hc, hau]
      simp

/-- Witness for C6: one interface inheriting every default, one
overriding all four fields. -/
theorem ospf_default_inheritance_witness :
    ((resolveInterface "ns" (c6NodeDefaults.ospf.getD false)
        (nodeDefaultOspfConfig c6NodeDefaults) ⟨"P", "Q"⟩ "a"
        { address := "10.0.0.1/24", peer := "10.0.0.2" }).toOption.getD {}).ospf_config
      = some (nodeDefaultOspfConfig c6NodeDefaults)
    ∧ (((resolveInterface "ns" (c6NodeDefaults.ospf.getD false)
        (nodeDefaultOspfConfig c6NodeDefaults) ⟨"P", "Q"⟩ "b"
        { address := "10.0.0.3/24", peer := "10.0.0.4", ospf := some true,
          area := some 1, cost := some 2, auth := some "s" }).toOption.getD
        {}).enable_ospf = true
      ∧ ((resolveInterface "ns" (c6NodeDefaults.ospf.getD false)
        (nodeDefaultOspfConfig c6NodeDefaults) ⟨"P", "Q"⟩ "b"
        { address := "10.0.0.3/24", peer := "10.0.0.4", ospf := some true,
          area := some 1, cost := some 2, auth := some "s" }).toOption.getD
        {}).ospf_config = some ⟨1, 2, "s", "ptp"⟩) :=
  ⟨(ospf_default_inheritance "ns" c6NodeDefaults ⟨"P", "Q"⟩ "a"
      { address := "10.0.0.1/24", peer := "10.0.0.2" } _ rfl).1
      ⟨rfl, rfl, rfl, rfl, rfl⟩,
   (ospf_default_inheritance "ns" c6NodeDefaults ⟨"P", "Q"⟩ "b"
      { address := "10.0.0.3/24", peer := "10.0.0.4", ospf := some true,
        area := some 1, cost := some 2, auth := some "s" } _ rfl).2
      1 2 "s" rfl rfl rfl rfl⟩

/-- Inversion: a successful `Except.bind` passed through a successful
first stage. -/
theorem except_bind_ok {α β : Type} {x : Except String α} {f : α → Except String β} {b : β}
    (h : Except.bind x f = .ok b) : ∃ a, x = .ok a ∧ f a = .ok b := by
  cases x with
  | error e => exact absurd h (by simp [Except.bind])
  | ok a => exact ⟨a, rfl, h⟩

/-! ## Concrete inputs shared by the closed theorems -/

/-- Fixed external collaborators for the concrete pipeline runs: a fixed
git version, fixed wall-clock strings, a fixed keypair for every link,
and fixed `ipaddress` conversions. -/
def concreteEnv : ExternalEnv :=
  { git_version := "deadbeef"
    current_time_text := "2026-10-11 12:00:00"
    current_time_for_auth_text := "10-10-2026 12:00:00"
    keyFor := fun _ => ⟨"PRIV", "PUB"⟩
    interfaceNetworkOf := fun _ => "10.0.0.0/24"
    localNetworkOf := fun _ => "192.168.0.0/24" }

/-- The failing input for C1: OSPF interface parameters whose auth secret
is `"secret"` (and cost 0, matching the spec's worked example). -/
def c1AuthConfig : CommonOSPFConfig := ⟨0, 0, "secret", "ptp"⟩

/-- The document rendered at the C1 failing input. -/
def c1Doc : String :=
  get_bird_config "deadbeef" "2026-10-11 12:00:00" "10-10-2026 12:00:00" "" [] [] []
    [(0, [("wg0", c1AuthConfig)])]

set_option maxRecDepth 40000

/-- C1: at an interface with auth secret `"secret"`, the renderer emits
the `authentication cryptographic;` declaration, the fixed far-future
expiry, the accept-from timestamp (24 hours before render time) and the
`hmac sha512` identifier — but the quoted password string is the Python
`str()` of the whole OSPF-parameters object, because the source f-string
interpolates `ospf_interface_config` instead of its `auth` field, so the
emitted password is not the auth secret and the secret never appears in
the document. -/
theorem c1_password_is_object_str_not_secret :
    containsStr c1Doc "authentication cryptographic;" = true
    ∧ containsStr c1Doc "password \"<config_types.CommonOSPFConfig object>\" \x7b" = true
    ∧ containsStr c1Doc "generate to \"31-12-2099 23:59:59\";" = true
    ∧ containsStr c1Doc "accept from 10-10-2026 12:00:00" = true
    ∧ containsStr c1Doc "algorithm hmac sha512;" = true
    ∧ containsStr c1Doc "password \"secret\"" = false
    ∧ containsStr c1Doc "secret" = false := by decide

/-- The failing input for C2: an OSPF-enabled local network in area 0 and
a single OSPF-enabled point-to-point interface in area 1. -/
def c2Root : RootConfig :=
  { hostname := "host"
    ns := "ns"
    local_net := some { address := "192.168.0.0/24", ethname := "eth0",
                        ospf := some true, area := some 0 }
    networks := [("a", { address := "10.0.0.1/24", peer := "10.0.0.2",
                         ospf := some true, area := some 1 })] }

/-- C2: the synthesized virtual interface name `ns-veth1` is *not*
inserted under the local network's own area 0; lines 244-248 of the
source key the insertion on the stale loop variable `interface_item`
(the last interface of the aggregation loop, area 1), and the
`ospf_area_config[...] = {}` reset even wipes area 1's interface map,
dropping `ns-a` from the rendered configuration entirely. -/
theorem c2_local_network_inserted_under_stale_area :
    (parseNetworkConfig concreteEnv c2Root).map (fun p => p.ospf_area_config)
      = .ok [(1, [("ns-veth1", ⟨0, 0, "", "ptp"⟩)])]
    ∧ (parseNetworkConfig concreteEnv c2Root).map
        (fun p => areaMapHasIface p.ospf_area_config 0 "ns-veth1") = .ok false
    ∧ (parseNetworkConfig concreteEnv c2Root).map
        (fun p => areaMapHasIface p.ospf_area_config 1 "ns-a") = .ok false := by
  exact ⟨rfl, rfl, rfl⟩

/-- Extraction: what a successful pipeline run pins down — the resolved
interface map comes from `resolveAllInterfaces`, the parsed router id is
kept on the object, and the rendered document is `get_bird_config`
invoked with an empty router id, no direct interfaces and no export
exclusions. -/
theorem parseNetworkConfig_ok_fields (env : ExternalEnv) (root : RootConfig)
    (p : NetworkConfigParser) (hok : parseNetworkConfig env root = .ok p) :
    resolveAllInterfaces root.ns (root.config.ospf.getD false)
        (nodeDefaultOspfConfig root.config) env.keyFor [] root.networks
      = .ok p.interfaces
    ∧ p.router_id = root.routerid.getD ""
    ∧ p.network_bird_config
        = get_bird_config env.git_version env.current_time_text
            env.current_time_for_auth_text "" [] p.interface_cidrs [] p.ospf_area_config := by
  simp only [parseNetworkConfig] at hok
  obtain ⟨ifaces, hres, hok⟩ := except_bind_ok hok
  obtain ⟨amap0, hagg, hok⟩ := except_bind_ok hok
  obtain ⟨amap, hloc, hok⟩ := except_bind_ok hok
  injection hok with hok
  subst hok
  exact ⟨hres, rfl, rfl⟩

/-- A placeholder parser record used to name concrete pipeline results. -/
def emptyParser : NetworkConfigParser :=
  { hostname := "", ns := "", ifname_pfx := "", router_id := ""
    enable_local_network := false, network_default_enable_ospf := false
    network_default_ospf_config := ⟨0, 0, "", "ptp"⟩, enable_local_firewall := false
    interfaces := [], interface_cidrs := [], ospf_area_config := []
    network_bird_config := "" }

/-- C10: every accepted configuration is rendered through
`get_bird_config` with an empty router id, an empty direct-interface
list and an empty export-exclusion list — even though the input's
`routerid` was parsed onto the object, it is never handed to the
renderer; consequently the empty router id renders no `router id` line,
the empty list renders no direct-interface declaration, and the empty
exclusion list renders `export all`. -/
theorem renderer_invoked_with_empty_router_id (env : ExternalEnv) (root : RootConfig)
    (p : NetworkConfigParser) (hok : parseNetworkConfig env root = .ok p) :
    p.router_id = root.routerid.getD ""
    ∧ p.network_bird_config
        = get_bird_config env.git_version env.current_time_text
            env.current_time_for_auth_text "" [] p.interface_cidrs [] p.ospf_area_config
    ∧ routerIdText "" = ""
    ∧ dnamesText [] = ""
    ∧ exportFilterText [] = "export all" := by
  obtain ⟨-, hr, hb⟩ := parseNetworkConfig_ok_fields env root p hok
  exact ⟨hr, hb, rfl, rfl, rfl⟩

/-- A configuration with a non-empty `routerid`, for the C10 witness. -/
def c10Root : RootConfig :=
  { hostname := "h", ns := "ns", routerid := some "10.9.9.9"
    networks := [("a", { address := "10.0.0.1/24", peer := "10.0.0.2" })] }

/-- The concrete C10 pipeline result. -/
def c10Parsed : NetworkConfigParser :=
  (parseNetworkConfig concreteEnv c10Root).toOption.getD emptyParser

/-- Witness for C10 at the concrete input with `routerid = "10.9.9.9"`. -/
theorem renderer_invoked_with_empty_router_id_witness :
    c10Parsed.router_id = c10Root.routerid.getD ""
    ∧ c10Parsed.network_bird_config
        = get_bird_config concreteEnv.git_version concreteEnv.current_time_text
            concreteEnv.current_time_for_auth_text "" [] c10Parsed.interface_cidrs []
            c10Parsed.ospf_area_config
    ∧ routerIdText "" = ""
    ∧ dnamesText [] = ""
    ∧ exportFilterText [] = "export all" :=
  renderer_invoked_with_empty_router_id concreteEnv c10Root c10Parsed rfl

/-- Shape lemma: both branches fatal, so some fatal error results. -/
theorem exceptIte_error_exists {α : Type} {C : Prop} [Decidable C] (e1 e2 : String) :
    ∃ e, (if C then (Except.error e1 : Except String α) else Except.error e2)
      = .error e := by
  split
  · exact ⟨e1, rfl⟩
  · exact ⟨e2, rfl⟩

/-- An interface whose autoconnect validation cannot trip passes the
`exit(1)` validation gate. -/
theorem not_validate_bang (c : InterfaceConfig)
    (hv : c.autoconnect = true → c.endpoint ≠ "") : ¬((!c.validate) = true) := by
  simp only [InterfaceConfig.validate, Bool.not_not]
  intro hand
  rw [Bool.and_eq_true] at hand
  exact hv hand.1 (by simpa using hand.2)

/-- An unknown connector type always makes `resolveInterface` fail with
some fatal error (validation may trip first, but nothing succeeds). -/
theorem resolveInterface_unknown_connector_fails (ns : String) (dE : Bool)
    (dC : CommonOSPFConfig) (wg : Keypair) (n : String)
    (cfg : RawInterfaceConfig) (cc : RawConnectorConfig)
    (hcc : cfg.connector = some cc)
    (h1 : cc.type ≠ "phantun-server") (h2 : cc.type ≠ "phantun-client") :
    ∃ e, resolveInterface ns dE dC wg n cfg = .error e := by
  simp only [resolveInterface, hcc]
  rw [if_neg h1, if_neg h2]
  exact exceptIte_error_exists _ _

/-- An interface passing the autoconnect validation but declaring an
unknown connector type fails with the error naming that type. -/
theorem resolveInterface_unknown_connector_named (ns : String) (dE : Bool)
    (dC : CommonOSPFConfig) (wg : Keypair) (n : String)
    (cfg : RawInterfaceConfig) (cc : RawConnectorConfig)
    (hcc : cfg.connector = some cc)
    (h1 : cc.type ≠ "phantun-server") (h2 : cc.type ≠ "phantun-client")
    (hv : cfg.autoconnect.getD false = true → cfg.endpoint.getD "" ≠ "") :
    resolveInterface ns dE dC wg n cfg = .error ("unknown connector type: " ++ cc.type) := by
  simp only [resolveInterface, hcc]
  rw [if_neg h1, if_neg h2]
  exact if_neg (not_validate_bang _ hv)

/-- Error propagation: if any declared link fails resolution, the whole
interface-resolution loop fails. -/
theorem resolveAllInterfaces_error_of_mem (ns : String) (dE : Bool)
    (dC : CommonOSPFConfig) (keyFor : String → Keypair)
    (l : List (String × RawInterfaceConfig)) (acc : List (String × InterfaceConfig))
    (n : String) (cfg : RawInterfaceConfig)
    (hmem : (n, cfg) ∈ l)
    (herr : ∀ wg, ∃ e, resolveInterface ns dE dC wg n cfg = .error e) :
    ∃ e, resolveAllInterfaces ns dE dC keyFor acc l = .error e := by
  induction l generalizing acc with
  | nil => cases hmem
  | cons hd tl ih =>
    obtain ⟨hn, hcfg⟩ := hd
    rcases List.mem_cons.mp hmem with heq | htl
    · injection heq with e1 e2
      subst e1
      subst e2
      obtain ⟨e, he⟩ := herr (keyFor n)
      exact ⟨e, by simp [resolveAllInterfaces, he]⟩
    · cases hres : resolveInterface ns dE dC (keyFor hn) hn hcfg with
      | error e => exact ⟨e, by simp [resolveAllInterfaces, hres]⟩
      | ok it =>
        obtain ⟨e, he⟩ := ih (interfacesSet acc it.name it) htl
        exact ⟨e, by simp [resolveAllInterfaces, hres, he]⟩

/-- C7: a link declaring a connector whose type is neither
`phantun-server` nor `phantun-client` makes the whole compilation fail
(no parser state and no rendered document are produced), and the
connector resolution of that link fails with the fatal error naming the
offending type (whenever the earlier autoconnect validation of the same
link does not trip first). -/
theorem unknown_connector_type_fatal (env : ExternalEnv) (root : RootConfig)
    (n : String) (cfg : RawInterfaceConfig) (cc : RawConnectorConfig)
    (hmem : (n, cfg) ∈ root.networks) (hcc : cfg.connector = some cc)
    (h1 : cc.type ≠ "phantun-server") (h2 : cc.type ≠ "phantun-client") :
    (∃ e, parseNetworkConfig env root = .error e)
    ∧ ∀ ns dE dC wg, (cfg.autoconnect.getD false = true → cfg.endpoint.getD "" ≠ "") →
        resolveInterface ns dE dC wg n cfg
          = .error ("unknown connector type: " ++ cc.type) := by
  constructor
  · obtain ⟨e, he⟩ := resolveAllInterfaces_error_of_mem root.ns (root.config.ospf.getD false)
      (nodeDefaultOspfConfig root.config) env.keyFor root.networks [] n cfg hmem
      (fun wg => resolveInterface_unknown_connector_fails _ _ _ wg n cfg cc hcc h1 h2)
    exact ⟨e, by simp [parseNetworkConfig, he, Except.bind]⟩
  · intro ns dE dC wg hv
    exact resolveInterface_unknown_connector_named ns dE dC wg n cfg cc hcc h1 h2 hv

/-- A configuration declaring a connector of unknown type `bogus`. -/
def c7Root : RootConfig :=
  { hostname := "h", ns := "ns"
    networks := [("a", { address := "10.0.0.1/24", peer := "10.0.0.2",
                         connector := some { type := "bogus" } })] }

/-- Witness for C7 at the concrete `bogus` connector. -/
theorem unknown_connector_type_fatal_witness :
    (∃ e, parseNetworkConfig concreteEnv c7Root = .error e)
    ∧ resolveInterface "ns" false ⟨0, 0, "", "ptp"⟩ ⟨"P", "Q"⟩ "a"
        { address := "10.0.0.1/24", peer := "10.0.0.2",
          connector := some { type := "bogus" } }
      = .error ("unknown connector type: " ++ "bogus") :=
  ⟨(unknown_connector_type_fatal concreteEnv c7Root "a"
      { address := "10.0.0.1/24", peer := "10.0.0.2",
        connector := some { type := "bogus" } }
      { type := "bogus" } (by simp [c7Root]) rfl (by decide) (by decide)).1,
   (unknown_connector_type_fatal concreteEnv c7Root "a"
      { address := "10.0.0.1/24", peer := "10.0.0.2",
        connector := some { type := "bogus" } }
      { type := "bogus" } (by simp [c7Root]) rfl (by decide) (by decide)).2
     "ns" false ⟨0, 0, "", "ptp"⟩ ⟨"P", "Q"⟩ (by simp)⟩

/-- Two declared links with the same link name `a`, hence the same
composite interface name `ns-a`; the later one is marked by `mtu 1300`. -/
def c8Root : RootConfig :=
  { hostname := "h", ns := "ns"
    networks := [("a", { address := "10.0.0.1/24", peer := "10.0.0.2" }),
                 ("a", { address := "10.0.0.5/24", peer := "10.0.0.6",
                         mtu := some 1300 })] }

/-- C8 counterexample: with two links producing the composite name
`ns-a`, the compilation succeeds (no fatal rejection) and the resolved
interface set holds exactly one entry — the later declaration (mtu 1300)
silently replaced the earlier one (default mtu 1420). -/
theorem c8_duplicate_composite_names_not_rejected :
    (parseNetworkConfig concreteEnv c8Root).map
        (fun p => p.interfaces.map (fun q => (q.1, q.2.mtu)))
      = .ok [("ns-a", 1300)] := rfl

/-- `dict` assignment then lookup on the interfaces map. -/
theorem interfacesFind_set_self (m : List (String × InterfaceConfig)) (k : String)
    (v : InterfaceConfig) : interfacesFind (interfacesSet m k v) k = some v := by
  induction m with
  | nil => simp [interfacesSet, interfacesFind]
  | cons hd tl ih =>
    obtain ⟨k0, v0⟩ := hd
    by_cases h : k0 = k <;> simp [interfacesSet, interfacesFind, h, ih]

/-- A successful resolution loop over `l ++ [(n, raw)]` ends by storing
the resolution of `(n, raw)` with `dict` assignment. -/
theorem resolveAllInterfaces_append_last (ns : String) (dE : Bool) (dC : CommonOSPFConfig)
    (keyFor : String → Keypair) (l : List (String × RawInterfaceConfig))
    (n : String) (raw : RawInterfaceConfig) (acc res : List (String × InterfaceConfig))
    (hok : resolveAllInterfaces ns dE dC keyFor acc (l ++ [(n, raw)]) = .ok res) :
    ∃ it acc2, resolveInterface ns dE dC (keyFor n) n raw = .ok it
      ∧ res = interfacesSet acc2 it.name it := by
  induction l generalizing acc with
  | nil =>
    simp only [List.nil_append] at hok
    cases hres : resolveInterface ns dE dC (keyFor n) n raw with
    | error e => simp [resolveAllInterfaces, hres] at hok
    | ok it =>
      refine ⟨it, acc, rfl, ?_⟩
      simp only [resolveAllInterfaces, hres] at hok
      injection hok with hok
      exact hok.symm
  | cons hd tl ih =>
    obtain ⟨hn, hcfg⟩ := hd
    simp only [List.cons_append] at hok
    cases hres : resolveInterface ns dE dC (keyFor hn) hn hcfg with
    | error e => simp [resolveAllInterfaces, hres] at hok
    | ok it1 =>
      simp only [resolveAllInterfaces, hres] at hok
      exact ih (interfacesSet acc it1.name it1) hok

/-- C8 amended: the compiler performs no duplicate-name check; the
resolution loop stores each interface with `dict` assignment keyed by
the composite name, so the interface found in the resolved set under a
composite name is the resolution of the *last* declaration with that
name — a later link silently replaces an earlier one. -/
theorem c8_amended_last_declaration_wins (env : ExternalEnv) (root : RootConfig)
    (p : NetworkConfigParser) (l : List (String × RawInterfaceConfig))
    (n : String) (raw : RawInterfaceConfig)
    (hnet : root.networks = l ++ [(n, raw)])
    (hok : parseNetworkConfig env root = .ok p) :
    ∃ it, resolveInterface root.ns (root.config.ospf.getD false)
        (nodeDefaultOspfConfig root.config) (env.keyFor n) n raw = .ok it
      ∧ interfacesFind p.interfaces it.name = some it := by
  obtain ⟨hres, -, -⟩ := parseNetworkConfig_ok_fields env root p hok
  rw [hnet] at hres
  obtain ⟨it, acc2, hit, hset⟩ :=
    resolveAllInterfaces_append_last _ _ _ _ _ _ _ _ _ hres
  refine ⟨it, hit, ?_⟩
  rw [hset]
  exact interfacesFind_set_self _ _ _

/-- The concrete C8 pipeline result. -/
def c8Parsed : NetworkConfigParser :=
  (parseNetworkConfig concreteEnv c8Root).toOption.getD emptyParser

/-- Witness for the amended C8 at the concrete duplicate-name input. -/
theorem c8_amended_last_declaration_wins_witness :
    ∃ it, resolveInterface c8Root.ns (c8Root.config.ospf.getD false)
        (nodeDefaultOspfConfig c8Root.config) (concreteEnv.keyFor "a") "a"
        { address := "10.0.0.5/24", peer := "10.0.0.6", mtu := some 1300 }
      = .ok it
      ∧ interfacesFind c8Parsed.interfaces it.name = some it :=
  c8_amended_last_declaration_wins concreteEnv c8Root c8Parsed
    [("a", { address := "10.0.0.1/24", peer := "10.0.0.2" })] "a"
    { address := "10.0.0.5/24", peer := "10.0.0.6", mtu := some 1300 } rfl rfl

/-! ## C3: area-grouping invariant of the aggregation loop -/

theorem ifaceMapFind_set_self (m : AreaInterfaceMap) (k : String) (v : CommonOSPFConfig) :
    ifaceMapFind (ifaceMapSet m k v) k = some v := by
  induction m with
  | nil => simp [ifaceMapSet, ifaceMapFind]
  | cons hd tl ih =>
    obtain ⟨k0, v0⟩ := hd
    by_cases h : k0 = k <;> simp [ifaceMapSet, ifaceMapFind, h, ih]

theorem ifaceMapFind_set_other (m : AreaInterfaceMap) (k k2 : String) (v : CommonOSPFConfig)
    (h : k2 ≠ k) : ifaceMapFind (ifaceMapSet m k v) k2 = ifaceMapFind m k2 := by
  induction m with
  | nil => simp [ifaceMapSet, ifaceMapFind, Ne.symm h]
  | cons hd tl ih =>
    obtain ⟨k0, v0⟩ := hd
    by_cases h0 : k0 = k
    · subst h0
      simp [ifaceMapSet, ifaceMapFind, Ne.symm h]
    · simp [ifaceMapSet, ifaceMapFind, h0, ih]

theorem areaMapFind_set_self (m : AreaMap) (a : Nat) (d : AreaInterfaceMap) :
    areaMapFind (areaMapSet m a d) a = some d := by
  induction m with
  | nil => simp [areaMapSet, areaMapFind]
  | cons hd tl ih =>
    obtain ⟨a0, d0⟩ := hd
    by_cases h : a0 = a <;> simp [areaMapSet, areaMapFind, h, ih]

theorem areaMapFind_set_other (m : AreaMap) (a a2 : Nat) (d : AreaInterfaceMap)
    (h : a2 ≠ a) : areaMapFind (areaMapSet m a d) a2 = areaMapFind m a2 := by
  induction m with
  | nil => simp [areaMapSet, areaMapFind, Ne.symm h]
  | cons hd tl ih =>
    obtain ⟨a0, d0⟩ := hd
    by_cases h0 : a0 = a
    · subst h0
      simp [areaMapSet, areaMapFind, Ne.symm h]
    · simp [areaMapSet, areaMapFind, h0, ih]

/-- The value looked up after the area-presence check of the aggregation
loop: the area's current interface map, or a fresh empty one. -/
theorem areaMapFind_ensure (m : AreaMap) (a : Nat) :
    areaMapFind (if areaMapHas m a then m else areaMapSet m a []) a
      = some ((areaMapFind m a).getD []) := by
  by_cases h : areaMapHas m a
  · rw [if_pos h]
    unfold areaMapHas at h
    cases hf : areaMapFind m a with
    | none => rw [hf] at h; simp at h
    | some d => simp [hf]
  · rw [if_neg h]
    unfold areaMapHas at h
    cases hf : areaMapFind m a with
    | none => simp [areaMapFind_set_self]
    | some d => rw [hf] at h; simp at h

/-- The net effect of lines 239-242 for one OSPF-enabled interface:
ensure the area entry exists, then set the interface key in that area's
map. -/
def areaInsertIface (m : AreaMap) (a : Nat) (nm : String) (c : CommonOSPFConfig) : AreaMap :=
  areaMapSet (if areaMapHas m a then m else areaMapSet m a []) a
    (ifaceMapSet ((areaMapFind m a).getD []) nm c)

/-- One aggregation step on an OSPF-enabled interface is exactly the
area insertion of its name under its own area. -/
theorem ospfAggregateStep_enabled (m : AreaMap) (it : InterfaceConfig)
    (c : CommonOSPFConfig) (h1 : it.enable_ospf = true) (h2 : it.ospf_config = some c) :
    ospfAggregateStep m it = .ok (areaInsertIface m c.area it.name c) := by
  simp only [ospfAggregateStep, h1, h2, Bool.not_true, Bool.false_eq_true, if_false]
  rw [areaMapFind_ensure]
  rfl

/-- A disabled interface leaves the map unchanged. -/
theorem ospfAggregateStep_disabled (m : AreaMap) (it : InterfaceConfig)
    (h1 : it.enable_ospf = false) : ospfAggregateStep m it = .ok m := by
  simp [ospfAggregateStep, h1]

/-- Area insertion does not affect other interface names. -/
theorem areaInsertIface_hasIface_other (m : AreaMap) (aT : Nat) (nm k : String)
    (c : CommonOSPFConfig) (hk : nm ≠ k) (a : Nat) :
    areaMapHasIface (areaInsertIface m aT nm c) a k = areaMapHasIface m a k := by
  unfold areaInsertIface areaMapHasIface
  by_cases ha : a = aT
  · subst ha
    rw [areaMapFind_set_self]
    simp only [Option.getD_some]
    rw [ifaceMapFind_set_other _ _ _ _ (Ne.symm hk)]
  · rw [areaMapFind_set_other _ _ _ _ ha]
    by_cases hhas : areaMapHas m aT
    · rw [if_pos hhas]
    · rw [if_neg hhas, areaMapFind_set_other _ _ _ _ ha]

/-- Area insertion of a name absent from the whole map places it in the
target area and only there. -/
theorem areaInsertIface_hasIface_self (m : AreaMap) (aT : Nat) (nm : String)
    (c : CommonOSPFConfig) (hfr : ∀ a, areaMapHasIface m a nm = false) (a : Nat) :
    areaMapHasIface (areaInsertIface m aT nm c) a nm = decide (a = aT) := by
  unfold areaInsertIface areaMapHasIface
  by_cases ha : a = aT
  · subst ha
    rw [areaMapFind_set_self]
    simp only [Option.getD_some]
    rw [ifaceMapFind_set_self]
    simp
  · have hbase := hfr a
    unfold areaMapHasIface at hbase
    rw [areaMapFind_set_other _ _ _ _ ha]
    by_cases hhas : areaMapHas m aT
    · rw [if_pos hhas, hbase]
      simp [ha]
    · rw [if_neg hhas, areaMapFind_set_other _ _ _ _ ha, hbase]
      simp [ha]

/-- Invariant of the aggregation loop, by induction over the interface
list with a generalized accumulator: the loop succeeds, leaves foreign
names untouched, adds nothing for disabled interfaces, and places every
enabled interface's name exactly under its own area. -/
theorem ospfAggregate_invariant (l : List InterfaceConfig) (m : AreaMap)
    (hnd : (l.map fun it => it.name).Nodup)
    (hcfg : ∀ it ∈ l, it.enable_ospf = true → it.ospf_config.isSome)
    (hfresh : ∀ it ∈ l, ∀ a, areaMapHasIface m a it.name = false) :
    ∃ m2, ospfAggregate m l = .ok m2
      ∧ (∀ a k, (∀ it ∈ l, it.name ≠ k) →
          areaMapHasIface m2 a k = areaMapHasIface m a k)
      ∧ (∀ it ∈ l, it.enable_ospf = false →
          ∀ a, areaMapHasIface m2 a it.name = false)
      ∧ (∀ it ∈ l, ∀ c, it.ospf_config = some c → it.enable_ospf = true →
          ∀ a, (areaMapHasIface m2 a it.name = true ↔ a = c.area)) := by
  induction l generalizing m with
  | nil =>
    exact ⟨m, rfl, fun a k _ => rfl,
      fun it h => absurd h (List.not_mem_nil it),
      fun it h => absurd h (List.not_mem_nil it)⟩
  | cons it rest ih =>
    rw [List.map_cons, List.nodup_cons] at hnd
    obtain ⟨hni, hndr⟩ := hnd
    have hne : ∀ itr ∈ rest, it.name ≠ itr.name := by
      intro itr hmem heq
      exact hni (heq ▸ List.mem_map_of_mem _ hmem)
    cases hen : it.enable_ospf with
    | false =>
      have hstep := ospfAggregateStep_disabled m it hen
      obtain ⟨m2, hagg, hpres, hdis, henb⟩ := ih m hndr
        (fun itr hm => hcfg itr (List.mem_cons_of_mem _ hm))
        (fun itr hm => hfresh itr (List.mem_cons_of_mem _ hm))
      refine ⟨m2, ?_, ?_, ?_, ?_⟩
      · simp [ospfAggregate, hstep, hagg]
      · intro a k hk
        exact hpres a k (fun itr hm => hk itr (List.mem_cons_of_mem _ hm))
      · intro itr hm hoff a
        rcases List.mem_cons.mp hm with rfl | hm2
        · rw [hpres a itr.name (fun itr2 hm2 => Ne.symm (hne itr2 hm2))]
          exact hfresh itr (List.mem_cons_self _ _) a
        · exact hdis itr hm2 hoff a
      · intro itr hm c2 hsome2 htrue a
        rcases List.mem_cons.mp hm with rfl | hm2
        · rw [hen] at htrue
          cases htrue
        · exact henb itr hm2 c2 hsome2 htrue a
    | true =>
      obtain ⟨c, hsome⟩ :=
        Option.isSome_iff_exists.mp (hcfg it (List.mem_cons_self _ _) hen)
      have hstep := ospfAggregateStep_enabled m it c hen hsome
      have hfr_it : ∀ a, areaMapHasIface m a it.name = false :=
        hfresh it (List.mem_cons_self _ _)
      have hfresh2 : ∀ itr ∈ rest, ∀ a,
          areaMapHasIface (areaInsertIface m c.area it.name c) a itr.name = false := by
        intro itr hm a
        rw [areaInsertIface_hasIface_other m c.area it.name itr.name c (hne itr hm) a]
        exact hfresh itr (List.mem_cons_of_mem _ hm) a
      obtain ⟨m2, hagg, hpres, hdis, henb⟩ := ih (areaInsertIface m c.area it.name c) hndr
        (fun itr hm => hcfg itr (List.mem_cons_of_mem _ hm)) hfresh2
      refine ⟨m2, ?_, ?_, ?_, ?_⟩
      · simp [ospfAggregate, hstep, hagg]
      · intro a k hk
        rw [hpres a k (fun itr hm => hk itr (List.mem_cons_of_mem _ hm))]
        exact areaInsertIface_hasIface_other m c.area it.name k c
          (hk it (List.mem_cons_self _ _)) a
      · intro itr hm hoff a
        rcases List.mem_cons.mp hm with rfl | hm2
        · rw [hen] at hoff
          cases hoff
        · exact hdis itr hm2 hoff a
      · intro itr hm c2 hsome2 htrue a
        rcases List.mem_cons.mp hm with rfl | hm2
        · rw [hsome] at hsome2
          injection hsome2 with hc
          subst hc
          rw [hpres a itr.name (fun itr2 hm2 => Ne.symm (hne itr2 hm2))]
          rw [areaInsertIface_hasIface_self m c.area itr.name c hfr_it a]
          simp
        · exact henb itr hm2 c2 hsome2 htrue a

/-- C3: aggregating any set of resolved point-to-point interfaces with
pairwise-distinct names (as the interfaces dict guarantees) succeeds,
places each OSPF-enabled interface's name under exactly the area of its
own OSPF parameters, and records nothing for interfaces with
`enable-ospf = false`. -/
theorem area_grouping_exactly_own_area (l : List InterfaceConfig)
    (hnd : (l.map fun it => it.name).Nodup)
    (hcfg : ∀ it ∈ l, it.enable_ospf = true → it.ospf_config.isSome) :
    ∃ m, ospfAggregate [] l = .ok m
      ∧ (∀ it ∈ l, it.enable_ospf = false →
          ∀ a, areaMapHasIface m a it.name = false)
      ∧ (∀ it ∈ l, ∀ c, it.ospf_config = some c → it.enable_ospf = true →
          ∀ a, (areaMapHasIface m a it.name = true ↔ a = c.area)) := by
  obtain ⟨m2, hagg, -, h3, h4⟩ :=
    ospfAggregate_invariant l [] hnd hcfg (fun it _ a => rfl)
  exact ⟨m2, hagg, h3, h4⟩

/-- Concrete resolved interfaces for the C3 witness: two OSPF-enabled
links in areas 0 and 1, one link with OSPF disabled. -/
def c3Ifaces : List InterfaceConfig :=
  [{ name := "ns-a", enable_ospf := true, ospf_config := some ⟨0, 0, "", "ptp"⟩ },
   { name := "ns-b", enable_ospf := true, ospf_config := some ⟨1, 5, "s", "ptp"⟩ },
   { name := "ns-c", enable_ospf := false }]

/-- Witness for C3 at the concrete interface list. -/
theorem area_grouping_exactly_own_area_witness :
    (c3Ifaces.map fun it => it.name).Nodup
    ∧ (∃ m, ospfAggregate [] c3Ifaces = .ok m
        ∧ (∀ it ∈ c3Ifaces, it.enable_ospf = false →
            ∀ a, areaMapHasIface m a it.name = false)
        ∧ (∀ it ∈ c3Ifaces, ∀ c, it.ospf_config = some c → it.enable_ospf = true →
            ∀ a, (areaMapHasIface m a it.name = true ↔ a = c.area))) :=
  ⟨by decide, area_grouping_exactly_own_area c3Ifaces (by decide) (by decide)⟩
